import Mathlib

/-!
Shallow embedding of `pytorch_lightning/callbacks/device_stats_monitor.py`.

The Python module defines a `DeviceStatsMonitor` callback that, at
iteration boundaries of a host training loop, queries device statistics
(and optionally host-process CPU metrics), namespaces the resulting keys
and forwards them to every configured logger, plus a deprecated
stand-alone key-prefixing helper.

Python dictionaries are modelled as association lists `List (String × α)`
(insertion ordered, keys unique in every dictionary the code builds);
`dict.update` is modelled by `dictUpdate` below, which mirrors CPython
semantics: an existing key keeps its position and receives the new value,
a new key is appended.  The callback's observable behaviour (which
collaborator queries happen and which sink calls are emitted) is captured
as an explicit trace, and raised exceptions as the `Except.error` case.
-/

/-- Model of `pytorch_lightning.utilities.exceptions.MisconfigurationException`:
an exception carrying a message. -/
structure MisconfigurationException where
  msg : String
deriving DecidableEq

/-- Model of a logging sink: the only parts of a logger the monitor reads are
its `group_separator` property (its `log_metrics` method is recorded in the
trace rather than executed). -/
structure Logger where
  group_separator : String
deriving DecidableEq

/-- Model of the host `Trainer` as seen by the monitor: its configured
loggers, the emit-frequency predicate `_logger_connector.should_update_logs`,
the active device's `type`, the environment's responses to the two metric
queries (`accelerator.get_device_stats(device)` and
`get_cpu_process_metrics()`), and the global step counter. -/
structure Trainer (α : Type) where
  loggers : List Logger
  should_update_logs : Bool
  device_type : String
  device_stats_query : List (String × α)
  cpu_process_metrics : List (String × α)
  global_step : Nat
deriving DecidableEq

/-- One CPython `dict.update` step for a single key/value pair: if the key is
already present every entry with that key is overwritten in place, otherwise
the pair is appended at the end. -/
def dictUpdateOne {α : Type} (d : List (String × α)) (kv : String × α) : List (String × α) :=
  if d.any (fun p => p.1 == kv.1) then
    d.map (fun p => if p.1 == kv.1 then (p.1, kv.2) else p)
  else
    d ++ [kv]

/-- CPython `d.update(e)`: fold `dictUpdateOne` over the entries of `e` in
insertion order. -/
def dictUpdate {α : Type} (d e : List (String × α)) : List (String × α) :=
  e.foldl dictUpdateOne d

/-- Dictionary lookup `d[k]` on the association-list model (first entry with
the key wins, matching a dictionary whose keys are unique). -/
def lookupVal {α : Type} (d : List (String × α)) (k : String) : Option α :=
  (d.find? (fun p => p.1 == k)).map Prod.snd

/-- The key list of an association-list dictionary, in insertion order. -/
def keysOf {α : Type} (d : List (String × α)) : List String :=
  d.map Prod.fst

/-- Model of the module-level helper `_prefix_metric_keys(metrics_dict,
prefix, separator)`: it returns the dict comprehension rewriting every key
`k` to `prefix + separator + k`, values unchanged, in insertion order. -/
def _prefix_metric_keys {α : Type} (metrics_dict : List (String × α)) (pre sep : String) :
    List (String × α) :=
  metrics_dict.map (fun kv => ( pre ++ sep ++ kv.1, kv.2))

/-- The deprecation message passed to `rank_zero_deprecation` by the
deprecated helper. -/
def deprecation_message : String :=
  "`pytorch_lightning.callbacks.device_stats_monitor.prefix_metrics`" ++
  " is deprecated in v1.6 and will be removed in v1.8."

/-- Model of the deprecated module-level helper `prefix_metric_keys(
metrics_dict, prefix)`: it emits one deprecation notice (first component:
the list of diagnostics emitted by the call) and returns
`_prefix_metric_keys(metrics_dict, prefix, "")`. -/
def prefix_metric_keys {α : Type} (metrics_dict : List (String × α)) (pre : String) :
    List String × List (String × α) :=
  ([deprecation_message], _prefix_metric_keys metrics_dict pre "")

/-- Model of `DeviceStatsMonitor.setup`: raises `MisconfigurationException`
when the trainer has no logger, otherwise does nothing. -/
def DeviceStatsMonitor.setup {α : Type} (trainer : Trainer α) :
    Except MisconfigurationException Unit :=
  if trainer.loggers.isEmpty then
    .error ⟨"Cannot use `DeviceStatsMonitor` callback with `Trainer` that has no logger."⟩
  else
    .ok ()

/-- One recorded `logger.log_metrics(prefixed_device_stats, step=...)` call:
the logger's separator, the forwarded mapping and the step index. -/
structure SinkCall (α : Type) where
  separator : String
  metrics : List (String × α)
  step : Nat
deriving DecidableEq

/-- The observable trace of one sampling call: how many times each of the two
metric queries was made and the sink calls emitted, in order. -/
structure SampleTrace (α : Type) where
  device_queries : Nat
  process_queries : Nat
  sink_calls : List (SinkCall α)
deriving DecidableEq

/-- Guard of the device-metrics query: the Python truth value of
`self.cpu_stats is None or self.cpu_stats` for an `Optional[bool]` flag. -/
def queryDeviceFlag (cpu_stats : Option Bool) : Bool :=
  match cpu_stats with
  | none => true
  | some b => b

/-- Guard of the process-metrics query: the Python truth value of
`self.cpu_stats and device.type != "cpu"` (`None` is falsy, so this fires
exactly when the flag is explicitly `True` and the device is not the CPU). -/
def queryProcessFlag (cpu_stats : Option Bool) (device_type : String) : Bool :=
  (match cpu_stats with
    | some true => true
    | _ => false) && (device_type != "cpu")

/-- Model of `DeviceStatsMonitor._get_and_log_device_stats(trainer, ...,
key)`, parameterised by the monitor's `cpu_stats` constructor flag
(`Optional[bool]`).  Faithful to the source line by line: logger check,
`should_update_logs` early return, `device_stats = {}`, the two guarded
queries (`cpu_stats is None or cpu_stats`, then `cpu_stats and device.type
!= "cpu"` with `dict.update`), and the per-logger prefix-and-log loop. -/
def DeviceStatsMonitor._get_and_log_device_stats {α : Type} (cpu_stats : Option Bool)
    (trainer : Trainer α) (key : String) :
    Except MisconfigurationException (SampleTrace α) :=
  if trainer.loggers.isEmpty then
    .error ⟨"Cannot use `DeviceStatsMonitor` callback with `Trainer(logger=False)`."⟩
  else if !trainer.should_update_logs then
    .ok ⟨0, 0, []⟩
  else
    let queryDevice : Bool := queryDeviceFlag cpu_stats
    let device_stats₀ : List (String × α) :=
      if queryDevice then trainer.device_stats_query else []
    let queryProcess : Bool := queryProcessFlag cpu_stats trainer.device_type
    let device_stats : List (String × α) :=
      if queryProcess then dictUpdate device_stats₀ trainer.cpu_process_metrics
      else device_stats₀
    .ok ⟨(if queryDevice then 1 else 0), (if queryProcess then 1 else 0),
      trainer.loggers.map (fun lg =>
        ⟨lg.group_separator, _prefix_metric_keys device_stats key lg.group_separator,
          trainer.global_step⟩)⟩

/-- Model of the `on_train_batch_start` hook: delegates to
`_get_and_log_device_stats` with key `"on_train_batch_start"`. -/
def DeviceStatsMonitor.on_train_batch_start {α : Type} (cpu_stats : Option Bool)
    (trainer : Trainer α) : Except MisconfigurationException (SampleTrace α) :=
  DeviceStatsMonitor._get_and_log_device_stats cpu_stats trainer "on_train_batch_start"

/-- Model of the `on_train_batch_end` hook: delegates to
`_get_and_log_device_stats` with key `"on_train_batch_end"`. -/
def DeviceStatsMonitor.on_train_batch_end {α : Type} (cpu_stats : Option Bool)
    (trainer : Trainer α) : Except MisconfigurationException (SampleTrace α) :=
  DeviceStatsMonitor._get_and_log_device_stats cpu_stats trainer "on_train_batch_end"

/-- Sink calls of a sampling outcome; a raised exception emits none. -/
def sinkCallsOf {α : Type} : Except MisconfigurationException (SampleTrace α) → List (SinkCall α)
  | .ok t => t.sink_calls
  | .error _ => []

/-- Device-query count of a sampling outcome; a raised exception made none. -/
def deviceQueriesOf {α : Type} : Except MisconfigurationException (SampleTrace α) → Nat
  | .ok t => t.device_queries
  | .error _ => 0

/-- Process-query count of a sampling outcome; a raised exception made none. -/
def processQueriesOf {α : Type} : Except MisconfigurationException (SampleTrace α) → Nat
  | .ok t => t.process_queries
  | .error _ => 0

/-- Whether a sampling outcome raised an exception. -/
def raisedError {α : Type} : Except MisconfigurationException (SampleTrace α) → Bool
  | .ok _ => false
  | .error _ => true


/-- The unprefixed snapshot an emitting sampling call builds before the
per-logger prefixing loop: the device query's result (or the initial empty
dict when that query is skipped) merged, when the process query fires, with
the process query's result. -/
def mergedSnapshot {α : Type} (cpu_stats : Option Bool) (trainer : Trainer α) :
    List (String × α) :=
  let device_stats₀ : List (String × α) :=
    if queryDeviceFlag cpu_stats then trainer.device_stats_query else []
  if queryProcessFlag cpu_stats trainer.device_type then
    dictUpdate device_stats₀ trainer.cpu_process_metrics
  else
    device_stats₀

/-- Concrete trainer with no logger, for instantiating the setup claim. -/
def trainerC1 : Trainer ℚ := ⟨[], true, "cuda", [("x", 1)], [("y", 2)], 0⟩

/-- Concrete trainer with a logger but a throttling emit predicate and a
non-CPU device. -/
def trainerC3cex : Trainer ℚ := ⟨[⟨"/"⟩], false, "cuda", [("x", 1)], [("y", 2)], 0⟩

/-- Concrete emitting trainer with a non-CPU device and a key shared between
the device-stats result and the process-metrics result. -/
def trainerC3wit : Trainer ℚ :=
  ⟨[⟨"/"⟩], true, "cuda", [("shared", 1), ("m", 3)], [("shared", 2), ("cpu_pct", 4)], 5⟩

/-- Concrete trainer with no logger and a throttling emit predicate. -/
def trainerC4cex : Trainer ℚ := ⟨[], false, "cuda", [("x", 1)], [("y", 2)], 0⟩

/-- Concrete trainer with a logger and a throttling emit predicate. -/
def trainerC4wit : Trainer ℚ := ⟨[⟨"/"⟩], false, "cuda", [("x", 1)], [("y", 2)], 0⟩

/-- Concrete emitting trainer with two loggers of separators "/" and ".",
device stats `{"a": 1.0}` and global step 7. -/
def trainerC5 : Trainer ℚ := ⟨[⟨"/"⟩, ⟨"."⟩], true, "cuda", [("a", 1)], [], 7⟩

/-- Concrete emitting trainer used to instantiate the no-process-query claim. -/
def trainerC6wit : Trainer ℚ := ⟨[⟨"/"⟩], true, "cuda", [("x", 1)], [("y", 2)], 3⟩

/-- Concrete trainer with a logger and a throttling emit predicate, used to
instantiate the device-query claim on a skipped call. -/
def trainerC7cex : Trainer ℚ := ⟨[⟨"/"⟩], false, "cuda", [("x", 1)], [("y", 2)], 1⟩

/-- Concrete emitting trainer used to instantiate the device-query claim. -/
def trainerC7wit : Trainer ℚ := ⟨[⟨"/"⟩], true, "cuda", [("x", 1)], [("y", 2)], 2⟩

/-- Concrete emitting trainer whose device stats already contain both a key
and its label-prefixed form. -/
def trainerC9cex : Trainer ℚ := ⟨[⟨"/"⟩], true, "cuda", [("a", 1), ("L/a", 2)], [], 0⟩

/-- Concrete emitting trainer with two loggers, used to instantiate the
prefix-once claim. -/
def trainerC9wit : Trainer ℚ := ⟨[⟨"/"⟩, ⟨"."⟩], true, "cuda", [("a", 1)], [("b", 2)], 4⟩

/-- Concrete emitting trainer used to instantiate the empty-snapshot claim. -/
def trainerC10wit : Trainer ℚ := ⟨[⟨"/"⟩], true, "cuda", [("x", 1)], [("y", 2)], 11⟩

/-! ### Helper lemmas about the dictionary model -/

theorem string_append_left_cancel {s t u : String} (h : s ++ t = s ++ u) : t = u := by
  have hd := congrArg String.data h
  simp only [String.data_append] at hd
  exact String.ext (List.append_cancel_left hd)

theorem lookupVal_cons {α : Type} (q : String × α) (rest : List (String × α)) (k : String) :
    lookupVal (q :: rest) k = if q.1 = k then some q.2 else lookupVal rest k := by
  rw [lookupVal, List.find?_cons]
  by_cases hq : q.1 = k
  · rw [if_pos hq, beq_iff_eq.mpr hq]
    rfl
  · rw [if_neg hq, beq_eq_false_iff_ne.mpr hq]
    rfl

theorem lookupVal_prefixedKey {α : Type} (d : List (String × α)) (pre sep k : String) :
    lookupVal (_prefix_metric_keys d pre sep) ( pre ++ sep ++ k) = lookupVal d k := by
  induction d with
  | nil => rfl
  | cons kv rest ih =>
    rw [_prefix_metric_keys, List.map_cons, lookupVal_cons, ← _prefix_metric_keys, ih,
      lookupVal_cons]
    by_cases hk : kv.1 = k
    · simp [hk]
    · have h2 : ¬( pre ++ sep ++ kv.1 = pre ++ sep ++ k) :=
        fun hc => hk (string_append_left_cancel hc)
      simp [hk, h2]

theorem lookupVal_map_overwrite_self {α : Type} (d : List (String × α)) (kv : String × α)
    (h : d.any (fun p => p.1 == kv.1) = true) :
    lookupVal (d.map fun p => if p.1 == kv.1 then (p.1, kv.2) else p) kv.1 = some kv.2 := by
  induction d with
  | nil => simp at h
  | cons q rest ih =>
    rw [List.map_cons, lookupVal_cons]
    by_cases hq : q.1 = kv.1
    · have hb : (q.1 == kv.1) = true := beq_iff_eq.mpr hq
      simp [hb, hq]
    · have hb : (q.1 == kv.1) = false := beq_eq_false_iff_ne.mpr hq
      have h' : rest.any (fun p => p.1 == kv.1) = true := by
        rw [List.any_cons] at h
        simpa [hb] using h
      simpa [hb, hq] using ih h'

theorem lookupVal_dictUpdateOne_self {α : Type} (d : List (String × α)) (kv : String × α) :
    lookupVal (dictUpdateOne d kv) kv.1 = some kv.2 := by
  unfold dictUpdateOne
  by_cases h : d.any (fun p => p.1 == kv.1) = true
  · simpa [h] using lookupVal_map_overwrite_self d kv h
  · have h' : d.any (fun p => p.1 == kv.1) = false := Bool.eq_false_iff.mpr h
    rw [if_neg (by rw [h']; simp)]
    have hnone : d.find? (fun p => p.1 == kv.1) = none := by
      rw [List.find?_eq_none]
      intro p hp
      simpa using List.any_eq_false.mp h' p hp
    rw [lookupVal, List.find?_append, hnone]
    simp [List.find?_cons]

theorem lookupVal_map_overwrite_ne {α : Type} (d : List (String × α)) (kv : String × α)
    (k : String) (h : k ≠ kv.1) :
    lookupVal (d.map fun p => if p.1 == kv.1 then (p.1, kv.2) else p) k = lookupVal d k := by
  induction d with
  | nil => rfl
  | cons q rest ih =>
    rw [List.map_cons, lookupVal_cons, lookupVal_cons, ← ih]
    by_cases hq : q.1 = kv.1
    · have hb : (q.1 == kv.1) = true := beq_iff_eq.mpr hq
      have hqk : ¬(q.1 = k) := fun hc => h (hc ▸ hq)
      simp [hb, hqk]
    · have hb : (q.1 == kv.1) = false := beq_eq_false_iff_ne.mpr hq
      simp [hb]

theorem lookupVal_dictUpdateOne_ne {α : Type} (d : List (String × α)) (kv : String × α)
    (k : String) (h : k ≠ kv.1) :
    lookupVal (dictUpdateOne d kv) k = lookupVal d k := by
  unfold dictUpdateOne
  by_cases ha : d.any (fun p => p.1 == kv.1) = true
  · simpa [ha] using lookupVal_map_overwrite_ne d kv k h
  · have h' : d.any (fun p => p.1 == kv.1) = false := Bool.eq_false_iff.mpr ha
    rw [if_neg (by rw [h']; simp)]
    have hb : (kv.1 == k) = false := beq_eq_false_iff_ne.mpr (fun hc => h hc.symm)
    rw [lookupVal, List.find?_append, lookupVal]
    simp [List.find?_cons, hb]

theorem lookupVal_dictUpdate_not_mem {α : Type} (e d : List (String × α)) (k : String)
    (h : k ∉ keysOf e) :
    lookupVal (dictUpdate d e) k = lookupVal d k := by
  induction e generalizing d with
  | nil => rfl
  | cons kv rest ih =>
    rw [keysOf, List.map_cons, List.mem_cons, not_or] at h
    rw [dictUpdate, List.foldl_cons, ← dictUpdate, ih (dictUpdateOne d kv) h.2,
      lookupVal_dictUpdateOne_ne d kv k h.1]

theorem lookupVal_dictUpdate_mem {α : Type} (e d : List (String × α)) (k : String)
    (hnodup : (keysOf e).Nodup) (hk : k ∈ keysOf e) :
    lookupVal (dictUpdate d e) k = lookupVal e k := by
  induction e generalizing d with
  | nil => simp [keysOf] at hk
  | cons kv rest ih =>
    rw [keysOf, List.map_cons, List.nodup_cons] at hnodup
    rw [dictUpdate, List.foldl_cons, ← dictUpdate, lookupVal_cons]
    by_cases hq : kv.1 = k
    · rw [if_pos hq, ← hq, lookupVal_dictUpdate_not_mem rest (dictUpdateOne d kv) kv.1
        hnodup.1, lookupVal_dictUpdateOne_self]
    · rw [if_neg hq]
      have hk' : k ∈ keysOf rest := by
        rw [keysOf, List.map_cons, List.mem_cons] at hk
        exact hk.resolve_left (fun hc => hq hc.symm)
      exact ih (dictUpdateOne d kv) hnodup.2 hk'

/-! ### Branch lemmas for the sampling call -/

theorem getAndLog_no_logger {α : Type} (cpu_stats : Option Bool) (trainer : Trainer α)
    (key : String) (h : trainer.loggers = []) :
    DeviceStatsMonitor._get_and_log_device_stats cpu_stats trainer key =
      .error ⟨"Cannot use `DeviceStatsMonitor` callback with `Trainer(logger=False)`."⟩ := by
  rw [DeviceStatsMonitor._get_and_log_device_stats, if_pos (by rw [h]; rfl)]

theorem getAndLog_skip {α : Type} (cpu_stats : Option Bool) (trainer : Trainer α)
    (key : String) (hlog : trainer.loggers ≠ []) (hupd : trainer.should_update_logs = false) :
    DeviceStatsMonitor._get_and_log_device_stats cpu_stats trainer key = .ok ⟨0, 0, []⟩ := by
  have hempty : trainer.loggers.isEmpty = false := by
    simpa [List.isEmpty_iff] using hlog
  rw [DeviceStatsMonitor._get_and_log_device_stats, if_neg (by rw [hempty]; simp), hupd]
  rfl

theorem getAndLog_emitting {α : Type} (cpu_stats : Option Bool) (trainer : Trainer α)
    (key : String) (hlog : trainer.loggers ≠ []) (hupd : trainer.should_update_logs = true) :
    DeviceStatsMonitor._get_and_log_device_stats cpu_stats trainer key =
      .ok ⟨(if queryDeviceFlag cpu_stats then 1 else 0),
        (if queryProcessFlag cpu_stats trainer.device_type then 1 else 0),
        trainer.loggers.map (fun lg =>
          ⟨lg.group_separator,
            _prefix_metric_keys (mergedSnapshot cpu_stats trainer) key lg.group_separator,
            trainer.global_step⟩)⟩ := by
  have hempty : trainer.loggers.isEmpty = false := by
    simpa [List.isEmpty_iff] using hlog
  rw [DeviceStatsMonitor._get_and_log_device_stats, if_neg (by rw [hempty]; simp), hupd]
  rfl

/-! ### Claim theorems -/

/-- C1: for every configuration whose sink collection is empty, the setup
operation and both sampling hooks (iteration-start / iteration-end) raise
`MisconfigurationException`, and no sink `log_metrics` call is made. -/
theorem C1_empty_sinks_raise {α : Type} (cpu_stats : Option Bool) (trainer : Trainer α)
    (h : trainer.loggers = []) :
    DeviceStatsMonitor.setup trainer =
      .error ⟨"Cannot use `DeviceStatsMonitor` callback with `Trainer` that has no logger."⟩ ∧
    DeviceStatsMonitor.on_train_batch_start cpu_stats trainer =
      .error ⟨"Cannot use `DeviceStatsMonitor` callback with `Trainer(logger=False)`."⟩ ∧
    DeviceStatsMonitor.on_train_batch_end cpu_stats trainer =
      .error ⟨"Cannot use `DeviceStatsMonitor` callback with `Trainer(logger=False)`."⟩ ∧
    sinkCallsOf (DeviceStatsMonitor.on_train_batch_start cpu_stats trainer) = [] ∧
    sinkCallsOf (DeviceStatsMonitor.on_train_batch_end cpu_stats trainer) = [] := by
  have hsetup : DeviceStatsMonitor.setup trainer =
      .error ⟨"Cannot use `DeviceStatsMonitor` callback with `Trainer` that has no logger."⟩ := by
    rw [DeviceStatsMonitor.setup, if_pos (by rw [h]; rfl)]
  have hs := getAndLog_no_logger cpu_stats trainer "on_train_batch_start" h
  have he := getAndLog_no_logger cpu_stats trainer "on_train_batch_end" h
  rw [DeviceStatsMonitor.on_train_batch_start, DeviceStatsMonitor.on_train_batch_end]
  exact ⟨hsetup, hs, he, by rw [hs]; rfl, by rw [he]; rfl⟩

/-- C1 witness: the theorem instantiated at a concrete logger-free trainer. -/
theorem C1_empty_sinks_raise_witness :
    trainerC1.loggers = [] ∧
    (DeviceStatsMonitor.setup trainerC1 =
      .error ⟨"Cannot use `DeviceStatsMonitor` callback with `Trainer` that has no logger."⟩ ∧
    DeviceStatsMonitor.on_train_batch_start none trainerC1 =
      .error ⟨"Cannot use `DeviceStatsMonitor` callback with `Trainer(logger=False)`."⟩ ∧
    DeviceStatsMonitor.on_train_batch_end none trainerC1 =
      .error ⟨"Cannot use `DeviceStatsMonitor` callback with `Trainer(logger=False)`."⟩ ∧
    sinkCallsOf (DeviceStatsMonitor.on_train_batch_start none trainerC1) = [] ∧
    sinkCallsOf (DeviceStatsMonitor.on_train_batch_end none trainerC1) = []) :=
  ⟨rfl, C1_empty_sinks_raise none trainerC1 rfl⟩

/-- C2: the forwarded mapping rewrites each key of the snapshot to
`label + separator + key`, values unchanged and order preserved (stated
positionally); the rewrite is deterministic (equal inputs give equal
outputs); and on snapshot `{"a": 1.0}` with label `"L"` and separator `"/"`
it yields exactly `{"L/a": 1.0}`. -/
theorem C2_prefix_rewrite {α : Type} (d : List (String × α)) (pre sep : String) :
    (∀ i : Nat, (_prefix_metric_keys d pre sep)[i]? =
      (d[i]?).map (fun kv => ( pre ++ sep ++ kv.1, kv.2))) ∧
    (∀ d2 : List (String × α), d2 = d →
      _prefix_metric_keys d2 pre sep = _prefix_metric_keys d pre sep) ∧
    _prefix_metric_keys [("a", (1 : ℚ))] "L" "/" = [("L/a", 1)] := by
  refine ⟨fun i => ?_, fun d2 hd => by rw [hd], rfl⟩
  rw [_prefix_metric_keys, List.getElem?_map]

/-- C2 witness: the concrete-instance conjunct of the theorem. -/
theorem C2_prefix_rewrite_witness :
    _prefix_metric_keys [("a", (1 : ℚ))] "L" "/" = [("L/a", 1)] :=
  (C2_prefix_rewrite ([] : List (String × ℚ)) "" "").2.2

/-- C3 counterexample: a configuration with `cpu_stats = some true` and a
non-CPU device in which a sampling call (throttled away by the host's emit
predicate) performs zero device-metrics queries and zero process-metrics
queries, not exactly one each as the claim states for every sampling call. -/
theorem C3_counterexample :
    trainerC3cex.device_type ≠ "cpu" ∧
    deviceQueriesOf
      (DeviceStatsMonitor._get_and_log_device_stats (some true) trainerC3cex
        "on_train_batch_start") = 0 ∧
    processQueriesOf
      (DeviceStatsMonitor._get_and_log_device_stats (some true) trainerC3cex
        "on_train_batch_start") = 0 := by
  refine ⟨by decide, rfl, rfl⟩

/-- C3 (amended): with `cpu_stats = some true`, a non-CPU device, sinks
present and the emit predicate allowing emission, a sampling call performs
the device-metrics query exactly once and the process-metrics query exactly
once, and every key of the process-metrics result (in particular every key
shared with the device-metrics result) is forwarded with the process-metrics
value — last-write-wins, no error. -/
theorem C3_true_noncpu_queries {α : Type} (trainer : Trainer α) (key k : String)
    (hlog : trainer.loggers ≠ []) (hupd : trainer.should_update_logs = true)
    (hdev : trainer.device_type ≠ "cpu")
    (hnodup : (keysOf trainer.cpu_process_metrics).Nodup)
    (hk : k ∈ keysOf trainer.cpu_process_metrics) :
    deviceQueriesOf (DeviceStatsMonitor._get_and_log_device_stats (some true) trainer key) = 1 ∧
    processQueriesOf (DeviceStatsMonitor._get_and_log_device_stats (some true) trainer key) = 1 ∧
    ∀ c ∈ sinkCallsOf (DeviceStatsMonitor._get_and_log_device_stats (some true) trainer key),
      lookupVal c.metrics ( key ++ c.separator ++ k) =
        lookupVal trainer.cpu_process_metrics k := by
  have hqd : queryDeviceFlag (some true) = true := rfl
  have hqp : queryProcessFlag (some true) trainer.device_type = true := by
    simp [queryProcessFlag, hdev]
  rw [getAndLog_emitting (some true) trainer key hlog hupd]
  refine ⟨by rw [deviceQueriesOf, hqd]; rfl, by rw [processQueriesOf, hqp]; rfl, ?_⟩
  intro c hc
  rw [sinkCallsOf] at hc
  rw [List.mem_map] at hc
  obtain ⟨lg, _, rfl⟩ := hc
  show lookupVal (_prefix_metric_keys (mergedSnapshot (some true) trainer) key
    lg.group_separator) ( key ++ lg.group_separator ++ k) = _
  rw [lookupVal_prefixedKey, mergedSnapshot]
  rw [hqp]
  simp only [if_true]
  exact lookupVal_dictUpdate_mem trainer.cpu_process_metrics _ k hnodup hk

/-- C3 witness: the amended theorem instantiated at a concrete emitting
trainer whose device stats and process metrics share the key "shared". -/
theorem C3_true_noncpu_queries_witness :
    (trainerC3wit.loggers ≠ [] ∧ trainerC3wit.should_update_logs = true ∧
     trainerC3wit.device_type ≠ "cpu" ∧
     (keysOf trainerC3wit.cpu_process_metrics).Nodup ∧
     "shared" ∈ keysOf trainerC3wit.cpu_process_metrics) ∧
    (deviceQueriesOf
      (DeviceStatsMonitor._get_and_log_device_stats (some true) trainerC3wit "L") = 1 ∧
    processQueriesOf
      (DeviceStatsMonitor._get_and_log_device_stats (some true) trainerC3wit "L") = 1 ∧
    ∀ c ∈ sinkCallsOf (DeviceStatsMonitor._get_and_log_device_stats (some true) trainerC3wit "L"),
      lookupVal c.metrics ("L" ++ c.separator ++ "shared") =
        lookupVal trainerC3wit.cpu_process_metrics "shared") :=
  ⟨⟨by decide, rfl, by decide, by decide, by decide⟩,
   C3_true_noncpu_queries trainerC3wit "L" "shared" (by decide) rfl (by decide) (by decide)
     (by decide)⟩

/-- C4 counterexample: a sampling call whose emit predicate signals skip but
whose trainer has an empty sink collection raises `MisconfigurationException`
— contradicting the claim that every skipped sampling call raises no error. -/
theorem C4_counterexample :
    trainerC4cex.should_update_logs = false ∧
    raisedError
      (DeviceStatsMonitor._get_and_log_device_stats none trainerC4cex
        "on_train_batch_start") = true :=
  ⟨rfl, rfl⟩

/-- C4 (amended): when the emit predicate signals skip and the sink
collection is nonempty, the sampling call performs no device query, no
process query, no sink call, and raises no error. -/
theorem C4_skip_no_side_effects {α : Type} (cpu_stats : Option Bool) (trainer : Trainer α)
    (key : String) (hlog : trainer.loggers ≠ []) (hupd : trainer.should_update_logs = false) :
    DeviceStatsMonitor._get_and_log_device_stats cpu_stats trainer key = .ok ⟨0, 0, []⟩ :=
  getAndLog_skip cpu_stats trainer key hlog hupd

/-- C4 witness: the amended theorem at a concrete skipped call. -/
theorem C4_skip_no_side_effects_witness :
    (trainerC4wit.loggers ≠ [] ∧ trainerC4wit.should_update_logs = false) ∧
    DeviceStatsMonitor._get_and_log_device_stats none trainerC4wit "on_train_batch_end" =
      .ok ⟨0, 0, []⟩ :=
  ⟨⟨by decide, rfl⟩, C4_skip_no_side_effects none trainerC4wit "on_train_batch_end"
    (by decide) rfl⟩

/-- C5: with two sinks of separators "/" and ".", an emitting sampling call
with device snapshot `{"a": 1.0}` and label "L" produces exactly two sink
calls, `{"L/a": 1.0}` to the first sink and `{"L.a": 1.0}` to the second, in
sink configuration order, both tagged with the global step 7. -/
theorem C5_two_sink_fanout :
    DeviceStatsMonitor._get_and_log_device_stats none trainerC5 "L" =
      .ok ⟨1, 0, [⟨"/", [("L/a", 1)], 7⟩, ⟨".", [("L.a", 1)], 7⟩]⟩ := by
  rfl

/-- C6: the process-metrics provider is never queried when `cpu_stats` is
explicitly false, and never queried when `cpu_stats` is explicitly true but
the active device is the general-purpose CPU — on every sampling call,
whatever branch it takes. -/
theorem C6_no_process_query {α : Type} (cpu_stats : Option Bool) (trainer : Trainer α)
    (key : String)
    (h : cpu_stats = some false ∨ (cpu_stats = some true ∧ trainer.device_type = "cpu")) :
    processQueriesOf (DeviceStatsMonitor._get_and_log_device_stats cpu_stats trainer key) = 0 := by
  by_cases hlog : trainer.loggers = []
  · rw [getAndLog_no_logger cpu_stats trainer key hlog]
    rfl
  · cases hupd : trainer.should_update_logs with
    | false =>
      rw [getAndLog_skip cpu_stats trainer key hlog hupd]
      rfl
    | true =>
      rw [getAndLog_emitting cpu_stats trainer key hlog hupd]
      have hqp : queryProcessFlag cpu_stats trainer.device_type = false := by
        rcases h with h | ⟨h1, h2⟩
        · simp [queryProcessFlag, h]
        · simp [queryProcessFlag, h1, h2]
      rw [processQueriesOf, hqp]
      rfl

/-- C6 witness: the theorem at a concrete emitting trainer with
`cpu_stats = some false`. -/
theorem C6_no_process_query_witness :
    (trainerC6wit.device_type = "cuda") ∧
    processQueriesOf
      (DeviceStatsMonitor._get_and_log_device_stats (some false) trainerC6wit
        "on_train_batch_start") = 0 :=
  ⟨rfl, C6_no_process_query (some false) trainerC6wit "on_train_batch_start" (Or.inl rfl)⟩

/-- C7 counterexample: a configuration with `cpu_stats` unset in which a
sampling call (throttled away by the emit predicate) performs zero
device-metrics queries, not exactly one as the claim states for every
sampling call. -/
theorem C7_counterexample :
    deviceQueriesOf
      (DeviceStatsMonitor._get_and_log_device_stats none trainerC7cex
        "on_train_batch_start") = 0 :=
  rfl

/-- C7 (amended): with `cpu_stats` unset or explicitly true, sinks present
and the emit predicate allowing emission, each sampling call performs the
device-metrics query exactly once. -/
theorem C7_device_query_once {α : Type} (cpu_stats : Option Bool) (trainer : Trainer α)
    (key : String) (hlog : trainer.loggers ≠ []) (hupd : trainer.should_update_logs = true)
    (hcs : cpu_stats = none ∨ cpu_stats = some true) :
    deviceQueriesOf (DeviceStatsMonitor._get_and_log_device_stats cpu_stats trainer key) = 1 := by
  rw [getAndLog_emitting cpu_stats trainer key hlog hupd]
  have hqd : queryDeviceFlag cpu_stats = true := by
    rcases hcs with h | h <;> rw [h] <;> rfl
  rw [deviceQueriesOf, hqd]
  rfl

/-- C7 witness: the amended theorem at a concrete emitting trainer with
`cpu_stats` unset. -/
theorem C7_device_query_once_witness :
    (trainerC7wit.loggers ≠ [] ∧ trainerC7wit.should_update_logs = true) ∧
    deviceQueriesOf
      (DeviceStatsMonitor._get_and_log_device_stats none trainerC7wit
        "on_train_batch_end") = 1 :=
  ⟨⟨by decide, rfl⟩,
   C7_device_query_once none trainerC7wit "on_train_batch_end" (by decide) rfl (Or.inl rfl)⟩

/-- C8: the deprecated `prefix_metric_keys(metrics, prefix)` emits exactly
one deprecation notice per call and returns the mapping whose keys are
`prefix + key` with no separator and unchanged values (stated positionally);
on `{"x": 2.0}` with prefix "p" it returns exactly `{"px": 2.0}`. -/
theorem C8_deprecated_prefixing {α : Type} (d : List (String × α)) (pre : String) :
    (prefix_metric_keys d pre).1 = [deprecation_message] ∧
    (prefix_metric_keys d pre).1.length = 1 ∧
    (∀ i : Nat, ((prefix_metric_keys d pre).2)[i]? =
      (d[i]?).map (fun kv => ( pre ++ kv.1, kv.2))) ∧
    (prefix_metric_keys [("x", (2 : ℚ))] "p").2 = [("px", 2)] := by
  refine ⟨rfl, rfl, fun i => ?_, rfl⟩
  rw [prefix_metric_keys, _prefix_metric_keys, List.getElem?_map]
  simp [String.append_empty]

/-- C9 counterexample: when the device-stats snapshot itself already contains
both a key and its label-prefixed form (here "a" and "L/a" with label "L" and
separator "/"), the forwarded mapping contains two entries differing only by
the prefix/separator ("L/a" and "L" ++ "/" ++ "L/a" = "L/L/a"), so the final
clause of the claim fails even though prefixing is applied only once. -/
theorem C9_counterexample :
    ∃ c ∈ sinkCallsOf (DeviceStatsMonitor._get_and_log_device_stats none trainerC9cex "L"),
      "L/a" ∈ keysOf c.metrics ∧ ("L" ++ "/" ++ "L/a") ∈ keysOf c.metrics := by
  decide

/-- C9 (amended): on every emitting sampling call, every configured sink
receives the label-plus-separator rewrite applied exactly once to the same
unprefixed merged snapshot — prefixing happens after the merge of device and
process metrics and is never double-applied (but the forwarded mapping can
still contain two entries differing only by the prefix when the unprefixed
snapshot itself already contains a prefixed key). -/
theorem C9_prefix_applied_once {α : Type} (cpu_stats : Option Bool) (trainer : Trainer α)
    (key : String) (hlog : trainer.loggers ≠ []) (hupd : trainer.should_update_logs = true) :
    sinkCallsOf (DeviceStatsMonitor._get_and_log_device_stats cpu_stats trainer key) =
      trainer.loggers.map (fun lg =>
        ⟨lg.group_separator,
          _prefix_metric_keys (mergedSnapshot cpu_stats trainer) key lg.group_separator,
          trainer.global_step⟩) := by
  rw [getAndLog_emitting cpu_stats trainer key hlog hupd]
  rfl

/-- C9 witness: the amended theorem at a concrete emitting trainer with two
sinks. -/
theorem C9_prefix_applied_once_witness :
    (trainerC9wit.loggers ≠ [] ∧ trainerC9wit.should_update_logs = true) ∧
    sinkCallsOf (DeviceStatsMonitor._get_and_log_device_stats none trainerC9wit "L") =
      trainerC9wit.loggers.map (fun lg =>
        ⟨lg.group_separator,
          _prefix_metric_keys (mergedSnapshot none trainerC9wit) "L" lg.group_separator,
          trainerC9wit.global_step⟩) :=
  ⟨⟨by decide, rfl⟩, C9_prefix_applied_once none trainerC9wit "L" (by decide) rfl⟩

/-- C10: with `cpu_stats = some false`, an emitting sampling call (sinks
present, emit predicate allowing) performs neither metric query and still
invokes `log_metrics` on every configured sink, in order, with the empty
mapping and the current global step — sink calls are not skipped because the
snapshot is empty. -/
theorem C10_false_cpu_stats_logs_empty {α : Type} (trainer : Trainer α) (key : String)
    (hlog : trainer.loggers ≠ []) (hupd : trainer.should_update_logs = true) :
    DeviceStatsMonitor._get_and_log_device_stats (some false) trainer key =
      .ok ⟨0, 0, trainer.loggers.map (fun lg =>
        ⟨lg.group_separator, [], trainer.global_step⟩)⟩ := by
  rw [getAndLog_emitting (some false) trainer key hlog hupd]
  rfl

/-- C10 witness: the theorem at a concrete emitting trainer with one sink. -/
theorem C10_false_cpu_stats_logs_empty_witness :
    (trainerC10wit.loggers ≠ [] ∧ trainerC10wit.should_update_logs = true) ∧
    DeviceStatsMonitor._get_and_log_device_stats (some false) trainerC10wit
      "on_train_batch_start" =
      .ok ⟨0, 0, trainerC10wit.loggers.map (fun lg =>
        ⟨lg.group_separator, [], trainerC10wit.global_step⟩)⟩ :=
  ⟨⟨by decide, rfl⟩,
   C10_false_cpu_stats_logs_empty trainerC10wit "on_train_batch_start" (by decide) rfl⟩
